import Mathlib

/-!
Shallow embedding of libpqxx's prepared-statement subsystem
(src/include/pqxx/prepared_statement.hxx) and of the collaborator
behaviour its specification describes.

The source unit under verification is a header: it contains the
`invocation` overload dispatch (each overload forwards to
`add_param` / `add_binary_param`), the `prepared_def` struct
(definition text plus a `registered` flag defaulting to false), and the
documented nul-byte warning for TEXT parameters.  The bodies of
`exec()`, `exists()` and the `add_param` family live in other
translation units of the repository; those parts are modelled from the
spec, with each such definition marked `Modelled from the spec:`.

Byte strings are modelled as `List Nat` so the embedded-zero-byte
behaviour of the TEXT path is expressible.
-/

namespace Pqxx

/-- Byte sequences (parameter payloads) are lists of byte values. -/
abbrev Bytes := List Nat

/-- Wire encoding of one parameter: TEXT or BINARY (spec section 3). -/
inductive Encoding where
  | text : Encoding
  | binary : Encoding
deriving DecidableEq, Repr

/-- One positional argument to a prepared statement (spec section 3):
encoding, null flag, and the payload for whichever encoding applies. -/
structure Parameter where
  encoding : Encoding
  is_null : Bool
  text_value : Option Bytes
  binary_value : Option Bytes
deriving DecidableEq, Repr

/-- The null parameter: `is_null = true`, `encoding = TEXT`, no payload
(spec: null carries no encoding-specific payload). -/
def nullParameter : Parameter :=
  { encoding := Encoding.text, is_null := true,
    text_value := none, binary_value := none }

/-- Modelled from the spec: `append_null()` of the ParameterAccumulator
(the body of `add_param()` is not in the source unit).  Appends a
Parameter with `is_null = true`, `encoding = TEXT`. -/
def append_null (ps : List Parameter) : List Parameter :=
  ps ++ [nullParameter]

/-- Modelled from the spec: `append_value(value, nonnull)` (the body of
`add_param(v, nonnull)` is not in the source unit).  If `nonnull` is
false, behaves as `append_null` regardless of the value; otherwise
appends a TEXT Parameter holding the converted representation.
`convert` stands for the external value-to-string capability. -/
def append_value {α : Type} (convert : α → Bytes) (ps : List Parameter)
    (v : α) (nonnull : Bool) : List Parameter :=
  if nonnull then
    ps ++ [{ encoding := Encoding.text, is_null := false,
             text_value := some (convert v), binary_value := none }]
  else
    append_null ps

/-- Modelled from the spec: `append_binary(bytes, nonnull)` (the body of
`add_binary_param` is not in the source unit).  Appends a BINARY
Parameter storing the byte sequence with its exact length, or null if
`nonnull` is false. -/
def append_binary (ps : List Parameter) (bytes : Bytes)
    (nonnull : Bool) : List Parameter :=
  if nonnull then
    ps ++ [{ encoding := Encoding.binary, is_null := false,
             text_value := none, binary_value := some bytes }]
  else
    append_null ps

/-- Modelled from the spec: `append_raw_pointer(ptr, nonnull)` (the body
of the pointer `add_param` is not in the source unit).  A C pointer is
modelled as `Option α`, `none` being the null pointer: if `ptr` is the
null pointer, always appends null regardless of `nonnull`; otherwise
behaves as `append_value`. -/
def append_raw_pointer {α : Type} (convert : α → Bytes)
    (ps : List Parameter) (ptr : Option α) (nonnull : Bool) :
    List Parameter :=
  match ptr with
  | none => append_null ps
  | some v => append_value convert ps v nonnull

/-- Source: `invocation::operator()(T*, bool nonnull=true)`
(prepared_statement.hxx lines 181-182) forwards to
`add_param(v, nonnull)`; the pointer `add_param` is modelled from the
spec as `append_raw_pointer`. -/
def invocation_call_ptr {α : Type} (convert : α → Bytes)
    (ps : List Parameter) (v : Option α) (nonnull : Bool) :
    List Parameter :=
  append_raw_pointer convert ps v nonnull

/-- Source: `invocation::operator()(const char*, bool nonnull=true)`
(prepared_statement.hxx lines 189-190), the dedicated C-string
overload; its body likewise forwards to `add_param(v, nonnull)`.
A C string converts to text as its own byte sequence. -/
def invocation_call_cstring (ps : List Parameter) (v : Option Bytes)
    (nonnull : Bool) : List Parameter :=
  append_raw_pointer (fun b => b) ps v nonnull

/-- Source: the nul-byte warning (prepared_statement.hxx lines 118-122):
"Any string you pass as a parameter will end at the first char with
value zero."  The bytes a TEXT parameter actually carries on the wire
are the prefix before the first zero byte. -/
def cstringTruncate (bytes : Bytes) : Bytes :=
  bytes.takeWhile (fun b => b != 0)

/-- Modelled from the spec: the bytes a mock backend receives for one
parameter.  TEXT payloads travel as C strings, truncated at the first
zero byte (the source's documented nul-byte warning); BINARY payloads
travel verbatim with explicit length; nulls carry no payload. -/
def transmittedBytes (p : Parameter) : Option Bytes :=
  if p.is_null then none
  else
    match p.encoding with
    | Encoding.text => p.text_value.map cstringTruncate
    | Encoding.binary => p.binary_value

/-- Source: `pqxx::prepare::internal::prepared_def`
(prepared_statement.hxx lines 205-214): text of the prepared query and
whether it has been prepared in the current session (`registered`
defaults to false). -/
structure prepared_def where
  definition : String
  registered : Bool
deriving DecidableEq, Repr

/-- Modelled from the spec: the per-connection StatementRegistry, a
mapping from statement name to its StatementDefinition, owned by the
connection collaborator.  Embedded as an association list. -/
abbrev StatementRegistry := List (String × prepared_def)

/-- Modelled from the spec: collaborator `has_definition(name)`. -/
def has_definition (reg : StatementRegistry) (name : String) : Bool :=
  (List.lookup name reg).isSome

/-- Modelled from the spec: collaborator
`register_definition(name, sql_text)` — stores or overwrites a
StatementDefinition with `registered = false`; never contacts the
backend. -/
def register_definition (reg : StatementRegistry) (name : String)
    (sql : String) : StatementRegistry :=
  (name, { definition := sql, registered := false }) ::
    reg.filter (fun p => p.fst != name)

/-- Modelled from the spec: the registry update performed by `exec()`
step 3 — set the named definition's `registered` flag to true. -/
def mark_registered : StatementRegistry → String → StatementRegistry
  | [], _ => []
  | (k, v) :: t, name =>
    if k = name then
      (k, { definition := v.definition, registered := true }) ::
        mark_registered t name
    else
      (k, v) :: mark_registered t name

/-- One backend round-trip, as seen by a mock connection: a
PREPARE-equivalent request carrying the statement name and SQL text, or
an EXECUTE-equivalent request carrying the name and parameter list. -/
inductive RoundTrip where
  | prepareRT (name : String) (sql : String) : RoundTrip
  | executeRT (name : String) (params : List Parameter) : RoundTrip
deriving DecidableEq, Repr

/-- Errors `exec()` can raise in this model (spec section 7): a local
usage error, detected before any backend round-trip, or a backend
error from a failed round-trip. -/
inductive ExecError where
  | usage (msg : String) : ExecError
  | backend : ExecError
deriving DecidableEq, Repr

/-- Outcome of one `exec()` call: the registry afterwards, the trace of
backend round-trips issued, and the error if any (`none` = success; the
tabular result itself is opaque to this core). -/
structure ExecOutcome where
  registry : StatementRegistry
  trace : List RoundTrip
  error : Option ExecError
deriving DecidableEq, Repr

/-- Modelled from the spec: `invocation::exec()` (declared at
prepared_statement.hxx line 135; its body is not in the source unit).
Algorithm of spec section 4.2: the unnamed (empty-name) statement skips
registry bookkeeping and performs a fresh define-and-execute from the
currently stored text, never consulting or advancing the `registered`
flag; for a named statement, an absent definition is a usage error with
zero round-trips; an unregistered definition first issues a PREPARE
round-trip (whose success `prepareOk` models) and only on success sets
`registered = true`; then one EXECUTE round-trip is issued.  The spec
leaves the unnamed statement with no stored definition unspecified; it
is modelled as the same usage error. -/
def exec (reg : StatementRegistry) (name : String)
    (params : List Parameter) (prepareOk : Bool) : ExecOutcome :=
  if name = "" then
    match List.lookup "" reg with
    | none =>
        { registry := reg, trace := [],
          error := some (ExecError.usage "unknown prepared statement") }
    | some d =>
        if prepareOk then
          { registry := reg,
            trace := [RoundTrip.prepareRT "" d.definition,
                      RoundTrip.executeRT "" params],
            error := none }
        else
          { registry := reg,
            trace := [RoundTrip.prepareRT "" d.definition],
            error := some ExecError.backend }
  else
    match List.lookup name reg with
    | none =>
        { registry := reg, trace := [],
          error := some (ExecError.usage "unknown prepared statement") }
    | some d =>
        if d.registered then
          { registry := reg,
            trace := [RoundTrip.executeRT name params],
            error := none }
        else if prepareOk then
          { registry := mark_registered reg name,
            trace := [RoundTrip.prepareRT name d.definition,
                      RoundTrip.executeRT name params],
            error := none }
        else
          { registry := reg,
            trace := [RoundTrip.prepareRT name d.definition],
            error := some ExecError.backend }

/-- Modelled from the spec: `invocation::exists()` (declared at
prepared_statement.hxx line 138; its body is not in the source unit).
"Queries the registry (via the connection collaborator) for whether
`statement_name` is a known definition."  The outcome records the
answer, the registry afterwards, and the round-trips issued, so the
frame conditions are inspectable. -/
def exists_run (reg : StatementRegistry) (name : String) :
    Bool × StatementRegistry × List RoundTrip :=
  (has_definition reg name, reg, [])

/-- One append call made on a ParameterAccumulator, covering the four
operations of spec section 4.1 (the four `invocation::operator()`
shapes of the source). -/
inductive AppendOp (α : Type) where
  | null : AppendOp α
  | value (v : α) (nonnull : Bool) : AppendOp α
  | binary (bytes : Bytes) (nonnull : Bool) : AppendOp α
  | rawPointer (ptr : Option α) (nonnull : Bool) : AppendOp α

/-- Dispatch of one append call to the corresponding accumulator
operation, mirroring the `invocation::operator()` overload dispatch of
the source (prepared_statement.hxx lines 141-190). -/
def applyOp {α : Type} (convert : α → Bytes) (ps : List Parameter) :
    AppendOp α → List Parameter
  | AppendOp.null => append_null ps
  | AppendOp.value v nn => append_value convert ps v nn
  | AppendOp.binary b nn => append_binary ps b nn
  | AppendOp.rawPointer ptr nn => append_raw_pointer convert ps ptr nn

/-- The single Parameter that one append call contributes. -/
def opParam {α : Type} (convert : α → Bytes) : AppendOp α → Parameter
  | AppendOp.null => nullParameter
  | AppendOp.value v nn =>
      if nn then
        { encoding := Encoding.text, is_null := false,
          text_value := some (convert v), binary_value := none }
      else nullParameter
  | AppendOp.binary b nn =>
      if nn then
        { encoding := Encoding.binary, is_null := false,
          text_value := none, binary_value := some b }
      else nullParameter
  | AppendOp.rawPointer ptr nn =>
      match ptr with
      | none => nullParameter
      | some v =>
          if nn then
            { encoding := Encoding.text, is_null := false,
              text_value := some (convert v), binary_value := none }
          else nullParameter

/-! Helper lemmas (shared). -/

/-- Marking a name registered rewrites exactly that name's definition,
keeping its SQL text. -/
theorem lookup_mark_registered (reg : StatementRegistry) (name : String) :
    List.lookup name (mark_registered reg name) =
      (List.lookup name reg).map
        (fun d => { definition := d.definition, registered := true }) := by
  induction reg with
  | nil => rfl
  | cons p t ih =>
    obtain ⟨k, v⟩ := p
    by_cases h : k = name
    · subst h
      simp [mark_registered, List.lookup]
    · have hb : (name == k) = false := by
        simp [Ne.symm h]
      simp [mark_registered, List.lookup, h, hb]
      exact ih

/-- A freshly registered definition is found under its name, with
`registered = false`. -/
theorem lookup_register_definition (reg : StatementRegistry)
    (name : String) (sql : String) :
    List.lookup name (register_definition reg name sql) =
      some { definition := sql, registered := false } := by
  simp [register_definition, List.lookup]

/-! Claim theorems. -/

/-- C1: For a named statement with a stored, not-yet-registered
definition, the first `exec()` issues exactly one PREPARE round-trip
carrying the stored SQL text followed by exactly one EXECUTE
round-trip, succeeds, and sets the definition's `registered` flag to
true; a subsequent `exec()` on the same name issues zero PREPARE
round-trips and exactly one EXECUTE round-trip and leaves the registry
unchanged (so every later call behaves the same way). -/
theorem first_exec_prepares_then_caches
    (reg : StatementRegistry) (name : String)
    (params params2 : List Parameter) (d : prepared_def)
    (hn : name ≠ "") (hl : List.lookup name reg = some d)
    (hr : d.registered = false) :
    (exec reg name params true).trace =
        [RoundTrip.prepareRT name d.definition,
         RoundTrip.executeRT name params]
    ∧ (exec reg name params true).error = none
    ∧ List.lookup name (exec reg name params true).registry =
        some { definition := d.definition, registered := true }
    ∧ (exec (exec reg name params true).registry name params2 true).trace
        = [RoundTrip.executeRT name params2]
    ∧ (exec (exec reg name params true).registry name params2
          true).registry = (exec reg name params true).registry := by
  have h1 : exec reg name params true =
      { registry := mark_registered reg name,
        trace := [RoundTrip.prepareRT name d.definition,
                  RoundTrip.executeRT name params],
        error := none } := by
    simp [exec, hn, hl, hr]
  have h2 : List.lookup name (mark_registered reg name) =
      some { definition := d.definition, registered := true } := by
    rw [lookup_mark_registered, hl]
    rfl
  refine ⟨by rw [h1], by rw [h1], by rw [h1]; exact h2, ?_, ?_⟩
  · rw [h1]
    simp [exec, hn, h2]
  · rw [h1]
    simp [exec, hn, h2]

/-- C2: Invoking a statement name with no stored definition (and not
the unnamed statement) fails with the usage error "unknown prepared
statement", issues zero backend round-trips, and leaves the registry
unchanged. -/
theorem unknown_statement_usage_error
    (reg : StatementRegistry) (name : String) (params : List Parameter)
    (prepareOk : Bool) (hn : name ≠ "")
    (hl : List.lookup name reg = none) :
    exec reg name params prepareOk =
      { registry := reg, trace := [],
        error := some (ExecError.usage "unknown prepared statement") } := by
  simp [exec, hn, hl]

/-- C3: When the PREPARE round-trip fails, `exec()` reports a backend
error, the registry (and so the `registered` flag) is unchanged — only
the PREPARE round-trip was issued — and a subsequent `exec()` on the
same name issues the PREPARE round-trip again. -/
theorem failed_prepare_leaves_unregistered
    (reg : StatementRegistry) (name : String)
    (params params2 : List Parameter) (d : prepared_def)
    (hn : name ≠ "") (hl : List.lookup name reg = some d)
    (hr : d.registered = false) :
    (exec reg name params false).registry = reg
    ∧ (exec reg name params false).error = some ExecError.backend
    ∧ (exec reg name params false).trace =
        [RoundTrip.prepareRT name d.definition]
    ∧ (exec (exec reg name params false).registry name params2
          true).trace =
        [RoundTrip.prepareRT name d.definition,
         RoundTrip.executeRT name params2] := by
  have h1 : exec reg name params false =
      { registry := reg,
        trace := [RoundTrip.prepareRT name d.definition],
        error := some ExecError.backend } := by
    simp [exec, hn, hl, hr]
  refine ⟨by rw [h1], by rw [h1], by rw [h1], ?_⟩
  rw [h1]
  simp [exec, hn, hl, hr]

/-- C4: Every `exec()` of the unnamed (empty-name) statement performs a
fresh define-and-execute from the currently stored SQL text: after
registering text `sql1` the call issues PREPARE with `sql1` then
EXECUTE; after re-registering text `sql2` the next call issues PREPARE
with `sql2` then EXECUTE; neither call changes the registry, and the
outcome never depends on (nor advances) any `registered` flag stored
under the empty name. -/
theorem unnamed_fresh_define_and_execute
    (reg : StatementRegistry) (sql1 sql2 : String)
    (params1 params2 : List Parameter) :
    (exec (register_definition reg "" sql1) "" params1 true).trace =
        [RoundTrip.prepareRT "" sql1, RoundTrip.executeRT "" params1]
    ∧ (exec (register_definition reg "" sql1) "" params1 true).error
        = none
    ∧ (exec (register_definition reg "" sql1) "" params1 true).registry
        = register_definition reg "" sql1
    ∧ (exec (register_definition
          (exec (register_definition reg "" sql1) "" params1
            true).registry "" sql2) "" params2 true).trace =
        [RoundTrip.prepareRT "" sql2, RoundTrip.executeRT "" params2]
    ∧ ∀ (reg2 : StatementRegistry) (sql : String) (b : Bool)
        (ps : List Parameter),
        exec (("", { definition := sql, registered := b }) :: reg2) ""
            ps true =
          { registry :=
              ("", { definition := sql, registered := b }) :: reg2,
            trace := [RoundTrip.prepareRT "" sql,
                      RoundTrip.executeRT "" ps],
            error := none } := by
  have h1 : ∀ (r : StatementRegistry) (sql : String)
      (ps : List Parameter),
      exec (register_definition r "" sql) "" ps true =
        { registry := register_definition r "" sql,
          trace := [RoundTrip.prepareRT "" sql,
                    RoundTrip.executeRT "" ps],
          error := none } := by
    intro r sql ps
    simp [exec, lookup_register_definition]
  refine ⟨by rw [h1], by rw [h1], by rw [h1], by rw [h1], ?_⟩
  intro reg2 sql b ps
  simp [exec, List.lookup]

/-- C9: `exists()` is a pure query: it answers whether the statement
name has a stored definition, leaves the registry untouched, issues no
backend round-trips (so no registration and no DEFINED-to-REGISTERED
transition happens), and when it answers false, `exec()` on that name
would fail with the usage error without any round-trip. -/
theorem exists_pure_query (reg : StatementRegistry) (name : String) :
    ((exists_run reg name).fst = true ↔
        ∃ d, List.lookup name reg = some d)
    ∧ (exists_run reg name).snd.fst = reg
    ∧ (exists_run reg name).snd.snd = []
    ∧ ∀ (params : List Parameter) (prepareOk : Bool),
        (exists_run reg name).fst = false →
          exec reg name params prepareOk =
            { registry := reg, trace := [],
              error :=
                some (ExecError.usage "unknown prepared statement") } := by
  refine ⟨?_, rfl, rfl, ?_⟩
  · simp [exists_run, has_definition, Option.isSome_iff_exists]
  · intro params prepareOk h
    have hl : List.lookup name reg = none := by
      simpa [exists_run, has_definition, Option.isSome_iff_exists]
        using h
    by_cases hn : name = ""
    · subst hn
      simp [exec, hl]
    · simp [exec, hn, hl]

/-- C5: A pointer-typed append with the null pointer appends a null
Parameter even when `nonnull` is true (pointer-null overrides the
flag); with a non-null pointer it behaves exactly as `append_value`
with the given flag. -/
theorem pointer_null_overrides_nonnull {α : Type} (convert : α → Bytes)
    (ps : List Parameter) (nonnull : Bool) :
    (∃ p, append_raw_pointer convert ps none nonnull = ps ++ [p]
        ∧ p.is_null = true)
    ∧ ∀ v : α, append_raw_pointer convert ps (some v) nonnull =
        append_value convert ps v nonnull := by
  exact ⟨⟨nullParameter, rfl, rfl⟩, fun v => rfl⟩

/-- C7: `append_value(v, nonnull)` appends exactly one TEXT-encoded
Parameter: with `nonnull = false` it is null regardless of the value;
with `nonnull = true` it is non-null and carries `convert v`. -/
theorem append_value_text_encoding {α : Type} (convert : α → Bytes)
    (ps : List Parameter) (v : α) :
    (∀ b : Bool, ∃ p, append_value convert ps v b = ps ++ [p]
        ∧ p.encoding = Encoding.text)
    ∧ (∃ p, append_value convert ps v false = ps ++ [p]
        ∧ p.is_null = true)
    ∧ (∃ p, append_value convert ps v true = ps ++ [p]
        ∧ p.is_null = false ∧ p.text_value = some (convert v)) := by
  refine ⟨fun b => ?_, ⟨nullParameter, rfl, rfl⟩,
    ⟨_, rfl, rfl, rfl⟩⟩
  cases b
  · exact ⟨nullParameter, rfl, rfl⟩
  · exact ⟨_, rfl, rfl⟩

/-- C10: The dedicated C-string overload
`invocation::operator()(const char*, bool)` produces exactly the same
parameter list as the generic pointer-template overload
`invocation::operator()(T*, bool)` at the same arguments (both forward
to the same `add_param(v, nonnull)`), for every flag value including
the default `nonnull = true`. -/
theorem cstring_overload_equiv (ps : List Parameter) (v : Option Bytes)
    (nonnull : Bool) :
    invocation_call_cstring ps v nonnull =
      invocation_call_ptr (fun b => b) ps v nonnull
    ∧ invocation_call_cstring ps v true =
      invocation_call_ptr (fun b => b) ps v true := by
  exact ⟨rfl, rfl⟩

/-- Each append call contributes exactly one Parameter, at the end. -/
theorem applyOp_eq_append {α : Type} (convert : α → Bytes)
    (ps : List Parameter) (op : AppendOp α) :
    applyOp convert ps op = ps ++ [opParam convert op] := by
  cases op with
  | null => rfl
  | value v nn =>
    cases nn <;>
      simp [applyOp, opParam, append_value, append_null]
  | binary b nn =>
    cases nn <;>
      simp [applyOp, opParam, append_binary, append_null]
  | rawPointer ptr nn =>
    cases ptr with
    | none => rfl
    | some v =>
      cases nn <;>
        simp [applyOp, opParam, append_raw_pointer, append_value,
          append_null]

/-- C8: A ParameterAccumulator preserves append order end-to-end: a
sequence of append calls yields exactly the list of the corresponding
Parameters in call order, appended after any existing contents — no
reordering and no compaction of nulls — so position i corresponds to
placeholder number i+1.  In particular feeding [a, null, b] yields
exactly [a-as-text, null, b-as-text]. -/
theorem parameter_order_preserved {α : Type} (convert : α → Bytes)
    (ps : List Parameter) (ops : List (AppendOp α)) :
    List.foldl (applyOp convert) ps ops =
        ps ++ ops.map (opParam convert)
    ∧ ∀ (a b : α),
        List.foldl (applyOp convert) []
            [AppendOp.value a true, AppendOp.null,
             AppendOp.value b true] =
          [{ encoding := Encoding.text, is_null := false,
             text_value := some (convert a), binary_value := none },
           nullParameter,
           { encoding := Encoding.text, is_null := false,
             text_value := some (convert b), binary_value := none }] := by
  constructor
  · induction ops generalizing ps with
    | nil => simp
    | cons op t ih =>
      simp only [List.foldl_cons, List.map_cons]
      rw [applyOp_eq_append, ih, List.append_assoc]
      rfl
  · intro a b
    rfl

/-- A byte list containing a zero splits as the truncated prefix, the
first zero, and a remainder. -/
theorem cstringTruncate_decomp (l : Bytes) (h : 0 ∈ l) :
    ∃ rest, l = cstringTruncate l ++ 0 :: rest := by
  induction l with
  | nil => cases h
  | cons a t ih =>
    by_cases ha : a = 0
    · exact ⟨t, by simp [cstringTruncate, List.takeWhile, ha]⟩
    · have ht : 0 ∈ t := by
        rcases List.mem_cons.mp h with h0 | h0
        · exact absurd h0.symm ha
        · exact h0
      obtain ⟨rest, hr⟩ := ih ht
      refine ⟨rest, ?_⟩
      have hb : (a != 0) = true := by simp [ha]
      simp only [cstringTruncate, List.takeWhile, hb,
        List.cons_append]
      exact congrArg (a :: ·) hr

/-- The truncated prefix contains no zero byte. -/
theorem zero_not_mem_cstringTruncate (l : Bytes) :
    0 ∉ cstringTruncate l := by
  intro hmem
  have hp := List.mem_takeWhile_imp hmem
  simp at hp

/-- C6: For a byte sequence with an embedded zero byte, the BINARY path
delivers the exact bytes to the backend (length and content preserved),
while the TEXT path delivers only the prefix before the first zero
byte — a strict truncation, losing the zero and everything after it. -/
theorem binary_preserves_bytes_text_truncates (bytes : Bytes)
    (h : 0 ∈ bytes) :
    (∃ p, append_binary [] bytes true = [p]
        ∧ p.is_null = false
        ∧ transmittedBytes p = some bytes)
    ∧ (∃ p, append_value (fun b => b) [] bytes true = [p]
        ∧ transmittedBytes p = some (cstringTruncate bytes))
    ∧ (∃ rest, bytes = cstringTruncate bytes ++ 0 :: rest)
    ∧ 0 ∉ cstringTruncate bytes
    ∧ cstringTruncate bytes ≠ bytes := by
  refine ⟨⟨_, rfl, rfl, rfl⟩, ⟨_, rfl, rfl⟩,
    cstringTruncate_decomp bytes h,
    zero_not_mem_cstringTruncate bytes, ?_⟩
  obtain ⟨rest, hr⟩ := cstringTruncate_decomp bytes h
  intro heq
  rw [heq] at hr
  have hlen := congrArg List.length hr
  simp [List.length_append] at hlen

/-! Witnesses: each hypothesis-bearing claim theorem evaluated at a
concrete input. -/

/-- C1 witness at registry [("s", "Q", unregistered)]. -/
theorem first_exec_prepares_then_caches_witness :
    (("s" : String) ≠ ""
      ∧ List.lookup "s"
          ([("s", { definition := "Q", registered := false })] :
            StatementRegistry) =
          some { definition := "Q", registered := false }
      ∧ ({ definition := "Q", registered := false } :
          prepared_def).registered = false)
    ∧ ((exec [("s", { definition := "Q", registered := false })] "s" []
          true).trace =
        [RoundTrip.prepareRT "s" "Q", RoundTrip.executeRT "s" []]
      ∧ (exec [("s", { definition := "Q", registered := false })] "s" []
          true).error = none
      ∧ List.lookup "s"
          (exec [("s", { definition := "Q", registered := false })] "s"
            [] true).registry =
          some { definition := "Q", registered := true }
      ∧ (exec
          (exec [("s", { definition := "Q", registered := false })] "s"
            [] true).registry "s" [] true).trace =
          [RoundTrip.executeRT "s" []]
      ∧ (exec
          (exec [("s", { definition := "Q", registered := false })] "s"
            [] true).registry "s" [] true).registry =
          (exec [("s", { definition := "Q", registered := false })] "s"
            [] true).registry) :=
  ⟨⟨by decide, by decide, rfl⟩,
    first_exec_prepares_then_caches
      [("s", { definition := "Q", registered := false })] "s" [] []
      { definition := "Q", registered := false }
      (by decide) (by decide) rfl⟩

/-- C2 witness: invoking "s" against a registry that only knows
"other". -/
theorem unknown_statement_usage_error_witness :
    (("s" : String) ≠ ""
      ∧ List.lookup "s"
          ([("other", { definition := "X", registered := false })] :
            StatementRegistry) = none)
    ∧ exec [("other", { definition := "X", registered := false })] "s"
        [] true =
      { registry := [("other", { definition := "X", registered := false })],
        trace := [],
        error := some (ExecError.usage "unknown prepared statement") } :=
  ⟨⟨by decide, by decide⟩,
    unknown_statement_usage_error
      [("other", { definition := "X", registered := false })] "s" []
      true (by decide) (by decide)⟩

/-- C3 witness at registry [("t", "R", unregistered)] with a failing
PREPARE. -/
theorem failed_prepare_leaves_unregistered_witness :
    (("t" : String) ≠ ""
      ∧ List.lookup "t"
          ([("t", { definition := "R", registered := false })] :
            StatementRegistry) =
          some { definition := "R", registered := false }
      ∧ ({ definition := "R", registered := false } :
          prepared_def).registered = false)
    ∧ ((exec [("t", { definition := "R", registered := false })] "t" []
          false).registry =
        [("t", { definition := "R", registered := false })]
      ∧ (exec [("t", { definition := "R", registered := false })] "t" []
          false).error = some ExecError.backend
      ∧ (exec [("t", { definition := "R", registered := false })] "t" []
          false).trace = [RoundTrip.prepareRT "t" "R"]
      ∧ (exec
          (exec [("t", { definition := "R", registered := false })] "t"
            [] false).registry "t" [] true).trace =
          [RoundTrip.prepareRT "t" "R",
           RoundTrip.executeRT "t" []]) :=
  ⟨⟨by decide, by decide, rfl⟩,
    failed_prepare_leaves_unregistered
      [("t", { definition := "R", registered := false })] "t" [] []
      { definition := "R", registered := false }
      (by decide) (by decide) rfl⟩

/-- C6 witness at the byte sequence [1, 0, 2]. -/
theorem binary_preserves_bytes_text_truncates_witness :
    (0 ∈ ([1, 0, 2] : Bytes))
    ∧ ((∃ p, append_binary [] ([1, 0, 2] : Bytes) true = [p]
          ∧ p.is_null = false
          ∧ transmittedBytes p = some [1, 0, 2])
      ∧ (∃ p, append_value (fun b => b) [] ([1, 0, 2] : Bytes) true
            = [p]
          ∧ transmittedBytes p = some (cstringTruncate [1, 0, 2]))
      ∧ (∃ rest, ([1, 0, 2] : Bytes) =
          cstringTruncate [1, 0, 2] ++ 0 :: rest)
      ∧ 0 ∉ cstringTruncate ([1, 0, 2] : Bytes)
      ∧ cstringTruncate ([1, 0, 2] : Bytes) ≠ [1, 0, 2]) :=
  ⟨by decide,
    binary_preserves_bytes_text_truncates [1, 0, 2] (by decide)⟩

end Pqxx
